import Mathlib

/-!
Verification development for the BookScrapper repository.

This file gives a shallow embedding, in Lean 4, of the parts of the
Python code base that the specification claims talk about:

* `src/bookscraper/book_utils.py` — the `hash_book` fingerprint function,
  including a full executable SHA-256 over Nat arithmetic (checked against
  the FIPS 180-4 test vectors during development);
* `src/bookscraper/search_and_scrape.py` — the intra-batch search-result
  deduplication loops, the store deduplication loops and the per-site
  counter bookkeeping of `main`;
* `src/bookscraper/scrape_details.py` — the retry loop of `scrape_book`
  and the per-field extraction logic of `scrape_amazon_details` and
  `scrape_packtpub_details`;
* `src/bookscraper/database.py` and `src/bookscraper/deduplicate.py` —
  the MongoDB insert loop of `save_books_to_mongodb` with its
  `DuplicateKeyError` handling, and the existence checks
  `leanpub_prescrape_deduplicate` / `check_book_exists_in_db`.

Python strings are modelled as Lean `String`; the `str.strip()` /
`str.lower()` normalizations are re-implemented over the character list
(`pyStrip`, `pyLower`) because the core library versions do not reduce in
the kernel; case folding is modelled on the ASCII range, which is the
range exercised by every claim. Randomness (`random.uniform`) and page
extraction results (Playwright selector lookups) enter the embedding as
explicit parameters, so every function is total and executable.
-/

/-! ## Python string primitives -/

/-- ASCII case folding of a single character, the fragment of Python
`str.lower` exercised by the claims. -/
def lowerChar (c : Char) : Char :=
  if 'A' ≤ c ∧ c ≤ 'Z' then Char.ofNat (c.toNat + 32) else c

/-- Python `str.strip()` default whitespace set: space, tab, newline,
carriage return, vertical tab, form feed. -/
def pyIsSpace (c : Char) : Bool :=
  c = ' ' || c = '\t' || c = '\n' || c = '\r' || c = Char.ofNat 11 || c = Char.ofNat 12

/-- Python `str.strip()`: drop leading and trailing whitespace. -/
def pyStrip (s : String) : String :=
  String.mk (((s.data.dropWhile pyIsSpace).reverse.dropWhile pyIsSpace).reverse)

/-- Python `str.lower()` (ASCII fragment). -/
def pyLower (s : String) : String := String.mk (s.data.map lowerChar)

/-! ## Lexicographic string order (Python `sorted` on `str` compares code
points lexicographically). Implemented over the character list so that it
reduces in the kernel. -/

/-- Lexicographic less-or-equal on character lists by code point — the
comparison Python `sorted` uses on strings. -/
def lexLe : List Char → List Char → Bool
  | [], _ => true
  | _ :: _, [] => false
  | a :: as, b :: bs => if a < b then true else if b < a then false else lexLe as bs

/-- Lexicographic less-or-equal on strings. -/
def strLeb (a b : String) : Bool := lexLe a.data b.data

theorem lexLe_total : ∀ as bs : List Char, lexLe as bs = true ∨ lexLe bs as = true
  | [], _ => Or.inl rfl
  | _ :: _, [] => Or.inr rfl
  | a :: as, b :: bs => by
    rcases lt_trichotomy a b with h | h | h
    · exact Or.inl (by simp [lexLe, h])
    · subst h
      rcases lexLe_total as bs with h2 | h2
      · exact Or.inl (by simp [lexLe, h2])
      · exact Or.inr (by simp [lexLe, h2])
    · exact Or.inr (by simp [lexLe, h])

theorem lexLe_trans : ∀ as bs cs : List Char,
    lexLe as bs = true → lexLe bs cs = true → lexLe as cs = true
  | [], _, _, _, _ => rfl
  | _ :: _, [], _, h, _ => by simp [lexLe] at h
  | _ :: _, _ :: _, [], _, h => by simp [lexLe] at h
  | a :: as, b :: bs, c :: cs, h1, h2 => by
    simp only [lexLe] at h1 h2 ⊢
    rcases lt_trichotomy a b with hab | hab | hab
    · rcases lt_trichotomy b c with hbc | hbc | hbc
      · simp [lt_trans hab hbc]
      · subst hbc; simp [hab]
      · rw [if_neg (lt_asymm hbc), if_pos hbc] at h2; simp at h2
    · subst hab
      rcases lt_trichotomy a c with hac | hac | hac
      · simp [hac]
      · subst hac
        rw [if_neg (lt_irrefl a), if_neg (lt_irrefl a)] at h1 h2 ⊢
        exact lexLe_trans as bs cs h1 h2
      · rw [if_neg (lt_asymm hac), if_pos hac] at h2; simp at h2
    · rw [if_neg (lt_asymm hab), if_pos hab] at h1; simp at h1

theorem lexLe_antisymm : ∀ as bs : List Char,
    lexLe as bs = true → lexLe bs as = true → as = bs
  | [], [], _, _ => rfl
  | [], _ :: _, _, h => by simp [lexLe] at h
  | _ :: _, [], h, _ => by simp [lexLe] at h
  | a :: as, b :: bs, h1, h2 => by
    simp only [lexLe] at h1 h2
    rcases lt_trichotomy a b with hab | hab | hab
    · rw [if_neg (lt_asymm hab), if_pos hab] at h2; simp at h2
    · subst hab
      rw [if_neg (lt_irrefl a), if_neg (lt_irrefl a)] at h1 h2
      rw [lexLe_antisymm as bs h1 h2]
    · rw [if_neg (lt_asymm hab), if_pos hab] at h1; simp at h1

instance : DecidableRel (fun a b : String => strLeb a b = true) :=
  fun _ _ => instDecidableEqBool _ _

instance : IsTotal String (fun a b : String => strLeb a b = true) :=
  ⟨fun a b => lexLe_total a.data b.data⟩

instance : IsTrans String (fun a b : String => strLeb a b = true) :=
  ⟨fun a b c => lexLe_trans a.data b.data c.data⟩

instance : IsAntisymm String (fun a b : String => strLeb a b = true) :=
  ⟨fun a b h1 h2 => String.ext (lexLe_antisymm a.data b.data h1 h2)⟩

/-- Python `sorted` on a list of strings (insertion sort; Python sort is
stable, and on a linear order any two sorts of the same multiset agree). -/
def pySorted (l : List String) : List String :=
  List.insertionSort (fun a b : String => strLeb a b = true) l

/-- Two lists that are permutations of each other sort to the same list:
the property of Python `sorted` that `hash_book` relies on. -/
theorem pySorted_perm_eq {a1 a2 : List String} (h : a1.Perm a2) :
    pySorted a1 = pySorted a2 :=
  List.eq_of_perm_of_sorted
    ((List.perm_insertionSort _ _).trans (h.trans (List.perm_insertionSort _ _).symm))
    (List.sorted_insertionSort _ _) (List.sorted_insertionSort _ _)

/-! ## SHA-256 (hashlib.sha256), FIPS 180-4, over Nat with explicit
reduction mod 2^32. Checked against the standard test vectors
(empty string, "abc", multi-block inputs) during development. -/

/-- Truncate to a 32-bit word. -/
def w32 (n : Nat) : Nat := n % 4294967296

/-- Right-rotation of a 32-bit word by `n` places. -/
def rotr32 (n x : Nat) : Nat := (x % 2 ^ n) * 2 ^ (32 - n) + x / 2 ^ n

/-- SHA-256 Ch function; complement is xor with the all-ones word. -/
def shaCh (e f g : Nat) : Nat := (e &&& f) ^^^ ((e ^^^ 4294967295) &&& g)

/-- SHA-256 Maj function. -/
def shaMaj (a b c : Nat) : Nat := (a &&& b) ^^^ (a &&& c) ^^^ (b &&& c)

def bigSigma0 (a : Nat) : Nat := rotr32 2 a ^^^ rotr32 13 a ^^^ rotr32 22 a

def bigSigma1 (e : Nat) : Nat := rotr32 6 e ^^^ rotr32 11 e ^^^ rotr32 25 e

def smallSigma0 (x : Nat) : Nat := rotr32 7 x ^^^ rotr32 18 x ^^^ (x >>> 3)

def smallSigma1 (x : Nat) : Nat := rotr32 17 x ^^^ rotr32 19 x ^^^ (x >>> 10)

/-- The 64 SHA-256 round constants, in decimal. -/
def sha256K : List Nat :=
  [1116352408, 1899447441, 3049323471, 3921009573,
   961987163, 1508970993, 2453635748, 2870763221,
   3624381080, 310598401, 607225278, 1426881987,
   1925078388, 2162078206, 2614888103, 3248222580,
   3835390401, 4022224774, 264347078, 604807628,
   770255983, 1249150122, 1555081692, 1996064986,
   2554220882, 2821834349, 2952996808, 3210313671,
   3336571891, 3584528711, 113926993, 338241895,
   666307205, 773529912, 1294757372, 1396182291,
   1695183700, 1986661051, 2177026350, 2456956037,
   2730485921, 2820302411, 3259730800, 3345764771,
   3516065817, 3600352804, 4094571909, 275423344,
   430227734, 506948616, 659060556, 883997877,
   958139571, 1322822218, 1537002063, 1747873779,
   1955562222, 2024104815, 2227730452, 2361852424,
   2428436474, 2756734187, 3204031479, 3329325298]

/-- The eight 32-bit working variables of the SHA-256 state. -/
structure Sha8 where
  h0 : Nat
  h1 : Nat
  h2 : Nat
  h3 : Nat
  h4 : Nat
  h5 : Nat
  h6 : Nat
  h7 : Nat
  deriving DecidableEq, Repr

/-- SHA-256 initial hash value, in decimal. -/
def sha256Init : Sha8 :=
  ⟨1779033703, 3144134277, 1013904242, 2773480762,
   1359893119, 2600822924, 528734635, 1541459225⟩

/-- Extend a 16-word block by `n` further message-schedule words. -/
def extendW (ws : List Nat) : Nat → List Nat
  | 0 => ws
  | n + 1 =>
    let prev := extendW ws n
    let t := prev.length
    prev ++ [w32 (smallSigma1 (prev.getD (t - 2) 0) + prev.getD (t - 7) 0 +
                  smallSigma0 (prev.getD (t - 15) 0) + prev.getD (t - 16) 0)]

/-- One SHA-256 round: `kw` is the pair of round constant and schedule word. -/
def roundStep (s : Sha8) (kw : Nat × Nat) : Sha8 :=
  let t1 := w32 (s.h7 + bigSigma1 s.h4 + shaCh s.h4 s.h5 s.h6 + kw.1 + kw.2)
  let t2 := w32 (bigSigma0 s.h0 + shaMaj s.h0 s.h1 s.h2)
  ⟨w32 (t1 + t2), s.h0, s.h1, s.h2, w32 (s.h3 + t1), s.h4, s.h5, s.h6⟩

/-- Compress one 16-word block into the running hash value. -/
def compressBlock (h : Sha8) (block : List Nat) : Sha8 :=
  let ws := extendW block 48
  let s := (sha256K.zip ws).foldl roundStep h
  ⟨w32 (h.h0 + s.h0), w32 (h.h1 + s.h1), w32 (h.h2 + s.h2), w32 (h.h3 + s.h3),
   w32 (h.h4 + s.h4), w32 (h.h5 + s.h5), w32 (h.h6 + s.h6), w32 (h.h7 + s.h7)⟩

/-- SHA-256 padding: append 0x80, zero bytes to 56 mod 64, then the
bit length as 8 big-endian bytes. -/
def padMessage (msg : List Nat) : List Nat :=
  let l := msg.length
  let z := (119 - l % 64) % 64
  msg ++ 0x80 :: (List.replicate z 0 ++ (List.range 8).map (fun i => 8 * l / 2 ^ (8 * (7 - i)) % 256))

/-- Interpret a 64-byte block as 16 big-endian 32-bit words. -/
def wordsOfBlock (b : List Nat) : List Nat :=
  (List.range 16).map (fun i =>
    b.getD (4 * i) 0 * 0x1000000 + b.getD (4 * i + 1) 0 * 0x10000 +
    b.getD (4 * i + 2) 0 * 0x100 + b.getD (4 * i + 3) 0)

/-- Split a byte list into `n` blocks of 64 bytes. -/
def blocksGo : Nat → List Nat → List (List Nat)
  | 0, _ => []
  | n + 1, l => l.take 64 :: blocksGo n (l.drop 64)

/-- SHA-256 of a byte list. -/
def sha256Bytes (msg : List Nat) : Sha8 :=
  let p := padMessage msg
  (blocksGo (p.length / 64) p).foldl (fun h b => compressBlock h (wordsOfBlock b)) sha256Init

/-- UTF-8 encoding of one character (Python `str.encode` is UTF-8). -/
def utf8Encode (c : Char) : List Nat :=
  let n := c.toNat
  if n < 0x80 then [n]
  else if n < 0x800 then [0xC0 ||| (n >>> 6), 0x80 ||| (n &&& 0x3F)]
  else if n < 0x10000 then
    [0xE0 ||| (n >>> 12), 0x80 ||| ((n >>> 6) &&& 0x3F), 0x80 ||| (n &&& 0x3F)]
  else
    [0xF0 ||| (n >>> 18), 0x80 ||| ((n >>> 12) &&& 0x3F),
     0x80 ||| ((n >>> 6) &&& 0x3F), 0x80 ||| (n &&& 0x3F)]

/-- UTF-8 bytes of a string. -/
def strBytes (s : String) : List Nat := (s.data.map utf8Encode).flatten

/-- The sixteen lowercase hexadecimal digits. -/
def hexAlphabet : List Char := "0123456789abcdef".data

/-- Lowercase hex digit for a nibble. -/
def hexDigitChar (n : Nat) : Char := hexAlphabet.getD n '0'

/-- Render a 32-bit word as 8 lowercase hex characters. -/
def word32Hex (w : Nat) : String :=
  String.mk ((List.range 8).map (fun i => hexDigitChar (w / 16 ^ (7 - i) % 16)))

/-- `hashlib.sha256(s.encode()).hexdigest()`. -/
def sha256hex (msg : String) : String :=
  let s := sha256Bytes (strBytes msg)
  word32Hex s.h0 ++ word32Hex s.h1 ++ word32Hex s.h2 ++ word32Hex s.h3 ++
  word32Hex s.h4 ++ word32Hex s.h5 ++ word32Hex s.h6 ++ word32Hex s.h7

/-! ## hash_book (book_utils.py lines 294-331) -/

/-- Python `"|".join(l)`. -/
def joinBar : List String → String
  | [] => ""
  | [a] => a
  | a :: rest => a ++ "|" ++ joinBar rest

/-- Author normalization of `hash_book`:
`sorted([str(a).strip().lower() for a in authors if a is not None])`.
Authors are modelled as strings (for string inputs, `str` is the
identity and the `is not None` filter keeps every element). -/
def normalizeAuthors (authors : List String) : List String :=
  pySorted (authors.map (fun a => pyLower (pyStrip a)))

/-- `hash_book` from book_utils.py lines 294-331: SHA-256 hexdigest of
`f"{title.strip().lower()}|{authors_str}|{year_str}"` where `authors_str`
joins the normalized sorted authors with a bar and `year_str` is
`str(year)` or the empty string. The `except` branch of the source
(returning the empty string) is unreachable for string inputs: every
operation in the `try` block is total. An empty title only logs a
warning and proceeds. -/
def hash_book (title : String) (authors : List String) (year : Option Int) : String :=
  let authorsStr := joinBar (normalizeAuthors authors)
  let yearStr := match year with | some y => toString y | none => ""
  let combinedFields := pyLower (pyStrip title) ++ "|" ++ authorsStr ++ "|" ++ yearStr
  sha256hex combinedFields

/-! ## Claims C1 and C8 -/

/-- C1: the fingerprint `hash_book` is invariant under permutation of the
author list and under leading/trailing-whitespace or letter-case
variation of the title and of the individual author names — whenever the
normalized titles agree and the normalized author multisets agree, the
digests agree. -/
theorem hash_book_author_perm_case_invariant (t1 t2 : String) (a1 a2 : List String)
    (y : Option Int)
    (ht : pyLower (pyStrip t1) = pyLower (pyStrip t2))
    (ha : (a1.map (fun a => pyLower (pyStrip a))).Perm
          (a2.map (fun a => pyLower (pyStrip a)))) :
    hash_book t1 a1 y = hash_book t2 a2 y := by
  unfold hash_book normalizeAuthors
  rw [ht, pySorted_perm_eq ha]

/-- Witness for C1 at a concrete permuted, whitespace/case-varied input. -/
theorem hash_book_author_perm_case_invariant_witness :
    hash_book "Clean Code" ["Robert Martin", " tim ottinger "] (some 2008) =
    hash_book "  CLEAN CODE " [" Tim Ottinger", "robert martin "] (some 2008) :=
  hash_book_author_perm_case_invariant _ _ _ _ _ (by decide) (by decide)

/-- Helper: `List.getD` returns the default or a list element. -/
theorem getD_eq_or_mem : ∀ (l : List Char) (n : Nat) (d : Char),
    l.getD n d = d ∨ l.getD n d ∈ l
  | [], _, _ => Or.inl rfl
  | a :: _, 0, _ => Or.inr (List.mem_cons_self a _)
  | _ :: l, n + 1, d => by
    rcases getD_eq_or_mem l n d with h | h
    · exact Or.inl h
    · exact Or.inr (List.mem_cons_of_mem _ h)

/-- Every character `hexDigitChar` produces is a hexadecimal digit. -/
theorem hexDigitChar_mem (n : Nat) : hexDigitChar n ∈ hexAlphabet := by
  rcases getD_eq_or_mem hexAlphabet n '0' with h | h
  · rw [hexDigitChar, h]; decide
  · exact h

/-- `word32Hex` always renders exactly 8 characters. -/
theorem word32Hex_length (w : Nat) : (word32Hex w).length = 8 := by
  simp [word32Hex, String.length]

/-- Every character of `word32Hex` is a hexadecimal digit. -/
theorem word32Hex_chars (w : Nat) : ∀ c ∈ (word32Hex w).data, c ∈ hexAlphabet := by
  intro c hc
  simp only [word32Hex, String.data] at hc
  rcases List.mem_map.mp hc with ⟨i, _, rfl⟩
  exact hexDigitChar_mem _

/-- String append acts as list append on the character data. -/
theorem strAppend_data (s t : String) : (s ++ t).data = s.data ++ t.data := rfl

/-- The SHA-256 hexdigest is exactly 64 hexadecimal characters. -/
theorem sha256hex_spec (m : String) :
    (sha256hex m).length = 64 ∧ ∀ c ∈ (sha256hex m).data, c ∈ hexAlphabet := by
  constructor
  · show (sha256hex m).data.length = 64
    simp only [sha256hex, strAppend_data, List.length_append]
    have h : ∀ w : Nat, (word32Hex w).data.length = 8 := fun w => word32Hex_length w
    rw [h, h, h, h, h, h, h, h]
  · intro c hc
    simp only [sha256hex, strAppend_data, List.mem_append] at hc
    rcases hc with ((((((h | h) | h) | h) | h) | h) | h) | h <;>
      exact word32Hex_chars _ _ h

/-- C8: for every author list and year, `hash_book` applied to the empty
title returns a 64-character hexadecimal digest — non-empty, and never
an error (the `except` fallback of the source is unreachable for string
inputs; the empty title only logs a warning). -/
theorem hash_book_empty_title_nonempty_hex (authors : List String) (year : Option Int) :
    (hash_book "" authors year).length = 64 ∧
    hash_book "" authors year ≠ "" ∧
    ∀ c ∈ (hash_book "" authors year).data, c ∈ hexAlphabet := by
  have h := sha256hex_spec
    (pyLower (pyStrip "") ++ "|" ++ joinBar (normalizeAuthors authors) ++ "|" ++
      (match year with | some y => toString y | none => ""))
  refine ⟨h.1, ?_, h.2⟩
  intro he
  have h2 : (hash_book "" authors year).length = 64 := h.1
  rw [he] at h2
  exact absurd h2 (by decide)

/-- Witness for C8 at a concrete author list and year. -/
theorem hash_book_empty_title_nonempty_hex_witness :
    hash_book "" ["Jane Doe"] (some 1999) ≠ "" :=
  (hash_book_empty_title_nonempty_hex ["Jane Doe"] (some 1999)).2.1

/-! ## Search candidates and the intra-batch deduplication loop
(search_and_scrape.py, `main`, lines 259-268 for Leanpub and 332-342 for
Amazon). A candidate is the search-result dictionary; `book_id` (Leanpub)
and `asin` (Amazon) are the source-native ids, absent when the dict has
no such key (`dict.get` returns None). -/

structure Candidate where
  site : String
  title : String
  book_id : Option String
  slug : Option String
  asin : Option String
  book_url : String
  deriving DecidableEq, Repr

/-- The deduplication loop of `main`: a `seen_ids` set accumulates the
value of `book.get(key)`; a book whose key is already in the set bumps
`search_duplicates_skipped`, otherwise it is appended to the kept list
and its key to the set. Returns (kept list, duplicates skipped). -/
def searchDedupGo (key : Candidate → Option String) :
    List Candidate → List (Option String) → List Candidate × Nat
  | [], _ => ([], 0)
  | b :: rest, seen =>
    if key b ∈ seen then
      ((searchDedupGo key rest seen).1, (searchDedupGo key rest seen).2 + 1)
    else
      (b :: (searchDedupGo key rest (key b :: seen)).1,
       (searchDedupGo key rest (key b :: seen)).2)

/-- The intra-batch deduplicator: the loop starts with an empty
`seen_ids` set. -/
def searchDedup (key : Candidate → Option String) (books : List Candidate) :
    List Candidate × Nat :=
  searchDedupGo key books []

theorem searchDedupGo_sublist (key : Candidate → Option String) :
    ∀ (l : List Candidate) (seen : List (Option String)),
      (searchDedupGo key l seen).1.Sublist l
  | [], _ => by simp [searchDedupGo]
  | b :: rest, seen => by
    by_cases h : key b ∈ seen
    · simp only [searchDedupGo, if_pos h]
      exact (searchDedupGo_sublist key rest seen).cons b
    · simp only [searchDedupGo, if_neg h]
      exact (searchDedupGo_sublist key rest (key b :: seen)).cons₂ b

theorem searchDedupGo_key_not_seen (key : Candidate → Option String) :
    ∀ (l : List Candidate) (seen : List (Option String)),
      ∀ b ∈ (searchDedupGo key l seen).1, key b ∉ seen
  | [], _ => by simp [searchDedupGo]
  | b :: rest, seen => by
    by_cases h : key b ∈ seen
    · simp only [searchDedupGo, if_pos h]
      exact fun x hx => searchDedupGo_key_not_seen key rest seen x hx
    · simp only [searchDedupGo, if_neg h]
      intro x hx
      rcases List.mem_cons.mp hx with rfl | hx2
      · exact h
      · intro hxseen
        exact searchDedupGo_key_not_seen key rest (key b :: seen) x hx2
          (List.mem_cons_of_mem _ hxseen)

theorem searchDedupGo_keys_nodup (key : Candidate → Option String) :
    ∀ (l : List Candidate) (seen : List (Option String)),
      ((searchDedupGo key l seen).1.map key).Nodup
  | [], _ => by simp [searchDedupGo]
  | b :: rest, seen => by
    by_cases h : key b ∈ seen
    · simpa only [searchDedupGo, if_pos h] using searchDedupGo_keys_nodup key rest seen
    · simp only [searchDedupGo, if_neg h, List.map_cons, List.nodup_cons]
      refine ⟨?_, searchDedupGo_keys_nodup key rest (key b :: seen)⟩
      intro hmem
      rcases List.mem_map.mp hmem with ⟨x, hx, hkx⟩
      exact searchDedupGo_key_not_seen key rest (key b :: seen) x hx
        (by rw [hkx]; exact List.mem_cons_self _ _)

theorem searchDedupGo_first_occ (key : Candidate → Option String) :
    ∀ (l : List Candidate) (seen : List (Option String)),
      ∀ b ∈ (searchDedupGo key l seen).1,
        l.find? (fun x => key x == key b) = some b
  | [], _ => by simp [searchDedupGo]
  | a :: rest, seen => by
    by_cases h : key a ∈ seen
    · simp only [searchDedupGo, if_pos h]
      intro b hb
      have hne : (key a == key b) = false := by
        rw [beq_eq_false_iff_ne]
        intro he
        exact searchDedupGo_key_not_seen key rest seen b hb (he ▸ h)
      simp only [List.find?, hne]
      exact searchDedupGo_first_occ key rest seen b hb
    · simp only [searchDedupGo, if_neg h]
      intro b hb
      rcases List.mem_cons.mp hb with rfl | hb2
      · simp only [List.find?, beq_self_eq_true]
      · have hbn := searchDedupGo_key_not_seen key rest (key a :: seen) b hb2
        have hne : (key a == key b) = false := by
          rw [beq_eq_false_iff_ne]
          intro he
          exact hbn (by rw [← he]; exact List.mem_cons_self _ _)
        simp only [List.find?, hne]
        exact searchDedupGo_first_occ key rest (key a :: seen) b hb2

theorem searchDedupGo_covers (key : Candidate → Option String) :
    ∀ (l : List Candidate) (seen : List (Option String)),
      ∀ b ∈ l, key b ∈ (searchDedupGo key l seen).1.map key ∨ key b ∈ seen
  | [], _ => by simp
  | a :: rest, seen => by
    intro b hb
    by_cases h : key a ∈ seen
    · simp only [searchDedupGo, if_pos h]
      rcases List.mem_cons.mp hb with rfl | hb2
      · exact Or.inr h
      · exact searchDedupGo_covers key rest seen b hb2
    · simp only [searchDedupGo, if_neg h, List.map_cons]
      rcases List.mem_cons.mp hb with rfl | hb2
      · exact Or.inl (List.mem_cons_self _ _)
      · rcases searchDedupGo_covers key rest (key a :: seen) b hb2 with h2 | h2
        · exact Or.inl (List.mem_cons_of_mem _ h2)
        · rcases List.mem_cons.mp h2 with he | h3
          · exact Or.inl (by rw [he]; exact List.mem_cons_self _ _)
          · exact Or.inr h3

theorem searchDedupGo_count (key : Candidate → Option String) :
    ∀ (l : List Candidate) (seen : List (Option String)),
      (searchDedupGo key l seen).1.length + (searchDedupGo key l seen).2 = l.length
  | [], _ => rfl
  | b :: rest, seen => by
    have ih1 := searchDedupGo_count key rest seen
    have ih2 := searchDedupGo_count key rest (key b :: seen)
    by_cases h : key b ∈ seen <;> simp [searchDedupGo, h] <;> omega

theorem searchDedupGo_of_nodup (key : Candidate → Option String) :
    ∀ (l : List Candidate) (seen : List (Option String)),
      (∀ b ∈ l, key b ∉ seen) → (l.map key).Nodup →
      searchDedupGo key l seen = (l, 0)
  | [], _, _, _ => rfl
  | b :: rest, seen, hns, hnd => by
    have h : key b ∉ seen := hns b (List.mem_cons_self _ _)
    rw [List.map_cons] at hnd
    have hnd2 := List.nodup_cons.mp hnd
    have hrest : ∀ x ∈ rest, key x ∉ (key b :: seen) := by
      intro x hx hmem
      rcases List.mem_cons.mp hmem with he | hseen
      · exact hnd2.1 (he ▸ List.mem_map_of_mem key hx)
      · exact hns x (List.mem_cons_of_mem _ hx) hseen
    simp only [searchDedupGo, if_neg h]
    rw [searchDedupGo_of_nodup key rest (key b :: seen) hrest hnd2.2]

/-- C9: the intra-batch deduplicator is idempotent — applied to its own
output it returns that output unchanged, with zero duplicates counted. -/
theorem searchDedup_idempotent (key : Candidate → Option String) (l : List Candidate) :
    searchDedup key (searchDedup key l).1 = ((searchDedup key l).1, 0) :=
  searchDedupGo_of_nodup key _ [] (by simp) (searchDedupGo_keys_nodup key l [])

/-- The two shapes of deduplication key the specification describes. -/
inductive DedupKey where
  | nativeId (i : String)
  | titleUrl (t u : String)
  deriving DecidableEq, Repr

/-- The key the specification describes for the intra-batch
deduplicator: the native id when present, otherwise the
(title, detailUrl) pair. The code does not implement this fallback; this
definition exists only to state the counterexample to claim C2. -/
def specDedupKey (c : Candidate) : DedupKey :=
  match c.book_id with
  | some i => DedupKey.nativeId i
  | none => DedupKey.titleUrl c.title c.book_url

/-- A candidate with no native id. -/
def cexNoId1 : Candidate :=
  { site := "leanpub", title := "Book A", book_id := none, slug := none,
    asin := none, book_url := "https://leanpub.com/a" }

/-- A second, distinct candidate with no native id and a different
(title, url) pair. -/
def cexNoId2 : Candidate :=
  { site := "leanpub", title := "Book B", book_id := none, slug := none,
    asin := none, book_url := "https://leanpub.com/b" }

/-- Counterexample to C2 as stated: the code keys the intra-batch
deduplication solely on `book.get("book_id")`, so two distinct
candidates without a native id collide on the shared `None` key and the
second is dropped, even though their (title, detailUrl) fallback keys
differ — the fallback key of the second candidate occurs in the input
but not in the output, violating "each key appears exactly once in the
output". -/
theorem searchDedup_no_fallback_cex :
    specDedupKey cexNoId2 ∈ ([cexNoId1, cexNoId2].map specDedupKey) ∧
    (searchDedup (fun c => c.book_id) [cexNoId1, cexNoId2]).1 = [cexNoId1] ∧
    specDedupKey cexNoId2 ∉
      ((searchDedup (fun c => c.book_id) [cexNoId1, cexNoId2]).1.map specDedupKey) := by
  refine ⟨by decide, by decide, by decide⟩

/-- C2 (amended): the intra-batch deduplicator maps an ordered candidate
list to the sublist of first occurrences keyed solely by the
source-native id (`book.get` returns None when the id is absent, so all
id-less candidates share the single None key); the output preserves
input order, every kept element is the first occurrence of its key, each
kept key appears exactly once, and every input key is represented. -/
theorem searchDedup_first_occurrence_by_native_id (key : Candidate → Option String)
    (l : List Candidate) :
    (searchDedup key l).1.Sublist l ∧
    ((searchDedup key l).1.map key).Nodup ∧
    (∀ b ∈ (searchDedup key l).1, l.find? (fun x => key x == key b) = some b) ∧
    (∀ b ∈ l, key b ∈ (searchDedup key l).1.map key) :=
  ⟨searchDedupGo_sublist key l [], searchDedupGo_keys_nodup key l [],
   searchDedupGo_first_occ key l [],
   fun b hb => (searchDedupGo_covers key l [] b hb).resolve_right (by simp)⟩

/-- Witness for the amended C2 at a concrete list with a duplicated
native id. -/
theorem searchDedup_first_occurrence_by_native_id_witness :
    (searchDedup (fun c => c.book_id) [cexNoId1, cexNoId2]).1.Sublist [cexNoId1, cexNoId2] ∧
    [cexNoId1, cexNoId2].find?
      (fun x => (fun c : Candidate => c.book_id) x == (fun c : Candidate => c.book_id) cexNoId1) =
      some cexNoId1 :=
  ⟨(searchDedup_first_occurrence_by_native_id (fun c => c.book_id) [cexNoId1, cexNoId2]).1,
   (searchDedup_first_occurrence_by_native_id (fun c => c.book_id) [cexNoId1, cexNoId2]).2.2.1
     cexNoId1 (by decide)⟩

/-! ## Store deduplication and detail-scrape phases of the per-site
pipeline (search_and_scrape.py, `main`). The concurrent existence checks
(`asyncio.gather`) return one boolean per candidate in input order; the
detail-scrape tasks return one Optional record per candidate in input
order. Both phases are modelled by per-candidate functions supplied as
parameters. -/

/-- Step 3 of the pipeline: partition the kept candidates against the
per-candidate store existence result; a candidate whose check returned
True bumps `total_duplicates_skipped`, the rest are kept in order. -/
def storeDedup (ex : Candidate → Bool) : List Candidate → List Candidate × Nat
  | [] => ([], 0)
  | b :: rest =>
    if ex b then ((storeDedup ex rest).1, (storeDedup ex rest).2 + 1)
    else (b :: (storeDedup ex rest).1, (storeDedup ex rest).2)

theorem storeDedup_count (ex : Candidate → Bool) :
    ∀ l : List Candidate, (storeDedup ex l).1.length + (storeDedup ex l).2 = l.length
  | [] => rfl
  | b :: rest => by
    have ih := storeDedup_count ex rest
    by_cases h : ex b <;> simp [storeDedup, h] <;> omega

theorem storeDedup_all_false (ex : Candidate → Bool) (hex : ∀ b, ex b = false) :
    ∀ l : List Candidate, storeDedup ex l = (l, 0)
  | [] => rfl
  | b :: rest => by
    simp only [storeDedup, hex b, Bool.false_eq_true, if_false,
      storeDedup_all_false ex hex rest]

/-! ## Scraped detail records (the book_details dictionaries built in
scrape_details.py). Optional fields stay absent when the corresponding
extraction raised; `authors` and `tags` degrade to the empty list. -/

structure BookDetails where
  url : String
  site : String
  title : String
  authors : List String
  isbn10 : Option String
  isbn13 : Option String
  tags : List String
  publication_date : Option String
  description : Option String
  year : Option Int
  hash : String
  deriving DecidableEq, Repr

/-- Step 4 of the pipeline: one scrape task per kept candidate; a `None`
result bumps the `unpublished_books` counter, a record is appended to
`scraped_books_data` in task order. -/
def scrapePhase (sc : Candidate → Option BookDetails) :
    List Candidate → List BookDetails × Nat
  | [] => ([], 0)
  | b :: rest =>
    match sc b with
    | some d => (d :: (scrapePhase sc rest).1, (scrapePhase sc rest).2)
    | none => ((scrapePhase sc rest).1, (scrapePhase sc rest).2 + 1)

theorem scrapePhase_count (sc : Candidate → Option BookDetails) :
    ∀ l : List Candidate, (scrapePhase sc l).1.length + (scrapePhase sc l).2 = l.length
  | [] => rfl
  | b :: rest => by
    have ih := scrapePhase_count sc rest
    rcases h : sc b with _ | d <;> simp [scrapePhase, h] <;> omega

/-- The per-site counters reported by the summary block of `main`
(search_and_scrape.py lines 647-657). -/
structure SiteRunSummary where
  initialSearchResults : Nat
  searchDuplicatesSkipped : Nat
  totalDuplicatesSkipped : Nat
  scrapedBooks : Nat
  unpublishedBooks : Nat
  deriving DecidableEq, Repr

/-- One per-site pipeline run (the Leanpub branch, lines 243-308, and the
Amazon branch, lines 312-381, follow exactly this shape): intra-batch
deduplication by native id, store deduplication by the per-candidate
existence check, then one detail-scrape task per surviving candidate. -/
def sitePipeline (key : Candidate → Option String) (ex : Candidate → Bool)
    (sc : Candidate → Option BookDetails) (searchResults : List Candidate) :
    SiteRunSummary :=
  let d1 := searchDedup key searchResults
  let d2 := storeDedup ex d1.1
  let d3 := scrapePhase sc d2.1
  { initialSearchResults := searchResults.length,
    searchDuplicatesSkipped := d1.2,
    totalDuplicatesSkipped := d2.2,
    scrapedBooks := d3.1.length,
    unpublishedBooks := d3.2 }

/-- C10: candidate-count conservation — for every per-site pipeline run,
the number of initial search results equals intra-batch duplicates
skipped plus store duplicates skipped plus successfully scraped books
plus candidates whose detail scrape returned no record; no candidate is
dropped unaccounted for or counted twice. -/
theorem sitePipeline_candidate_conservation (key : Candidate → Option String)
    (ex : Candidate → Bool) (sc : Candidate → Option BookDetails)
    (searchResults : List Candidate) :
    (sitePipeline key ex sc searchResults).initialSearchResults =
      (sitePipeline key ex sc searchResults).searchDuplicatesSkipped +
      (sitePipeline key ex sc searchResults).totalDuplicatesSkipped +
      (sitePipeline key ex sc searchResults).scrapedBooks +
      (sitePipeline key ex sc searchResults).unpublishedBooks := by
  have h1 := searchDedupGo_count key searchResults []
  have h2 := storeDedup_count ex (searchDedup key searchResults).1
  have h3 := scrapePhase_count sc (storeDedup ex (searchDedup key searchResults).1).1
  simp only [sitePipeline, searchDedup] at h1 h2 h3 ⊢
  omega

/-! ## The retry loop of scrape_book (scrape_details.py lines 21-92).
`retries = 5`; each loop iteration navigates to the page (a goto timeout
raises TimeoutError), checks for a 404 page (which returns None
immediately — permanent failure, no further attempts), runs the
site-specific detail scraper (a record returns immediately; None falls
through to the next attempt), and any other exception is retried. The
per-attempt outcome is supplied as a function of the attempt number; the
model returns the scrape result together with the number of attempts
performed. -/

inductive AttemptOutcome where
  | gotoTimeout
  | notFound
  | details (d : BookDetails)
  | noDetails
  | otherError
  deriving DecidableEq, Repr

/-- The retry budget of `scrape_book`: `retries = 5`. -/
def scrapeRetries : Nat := 5

/-- The `for attempt in range(1, retries + 1)` loop of `scrape_book`:
`attempt` is the current attempt number, the second argument the number
of loop iterations remaining. Returns (result, attempts used). -/
def scrapeBookLoop (outcome : Nat → AttemptOutcome) (attempt : Nat) :
    Nat → Option BookDetails × Nat
  | 0 => (none, 0)
  | remaining + 1 =>
    match outcome attempt with
    | .notFound => (none, 1)
    | .details d => (some d, 1)
    | _ =>
      ((scrapeBookLoop outcome (attempt + 1) remaining).1,
       (scrapeBookLoop outcome (attempt + 1) remaining).2 + 1)

/-- `scrape_book`: when the site has no entry in `site_constants` the
function returns None before the loop (zero attempts); otherwise the
retry loop runs starting at attempt 1 with `retries = 5` iterations, and
returns None after the budget is exhausted. -/
def scrape_book (siteKnown : Bool) (outcome : Nat → AttemptOutcome) :
    Option BookDetails × Nat :=
  if siteKnown then scrapeBookLoop outcome 1 scrapeRetries else (none, 0)

theorem scrapeBookLoop_le (outcome : Nat → AttemptOutcome) :
    ∀ (attempt n : Nat), (scrapeBookLoop outcome attempt n).2 ≤ n
  | _, 0 => Nat.le_refl 0
  | attempt, n + 1 => by
    have ih := scrapeBookLoop_le outcome (attempt + 1) n
    rcases h : outcome attempt with _ | _ | d | _ | _ <;>
      simp [scrapeBookLoop, h] <;> omega

theorem scrapeBookLoop_transient (outcome : Nat → AttemptOutcome)
    (h : ∀ a, outcome a = .gotoTimeout ∨ outcome a = .otherError) :
    ∀ (attempt n : Nat), scrapeBookLoop outcome attempt n = (none, n)
  | _, 0 => rfl
  | attempt, n + 1 => by
    have ih := scrapeBookLoop_transient outcome h (attempt + 1) n
    rcases h attempt with h2 | h2 <;> simp [scrapeBookLoop, h2, ih]

/-- C4: a candidate whose detail fetch hits a transient error (goto
timeout or any other retried exception) on every attempt is attempted
exactly `scrapeRetries = 5` times and then the routine terminates with a
failure result (None); and no run of `scrape_book`, whatever the
outcomes, ever performs more than 5 attempts. -/
theorem scrape_book_retry_budget (outcome : Nat → AttemptOutcome)
    (h : ∀ a, outcome a = .gotoTimeout ∨ outcome a = .otherError) :
    scrape_book true outcome = (none, 5) ∧
    ∀ (sk : Bool) (oc : Nat → AttemptOutcome), (scrape_book sk oc).2 ≤ 5 := by
  constructor
  · simp only [scrape_book, if_pos]
    exact scrapeBookLoop_transient outcome h 1 scrapeRetries
  · intro sk oc
    rcases sk with _ | _
    · simp [scrape_book]
    · simp only [scrape_book, if_pos]
      exact scrapeBookLoop_le oc 1 scrapeRetries

/-- Witness for C4: a fetch that times out on every attempt. -/
theorem scrape_book_retry_budget_witness :
    scrape_book true (fun _ => AttemptOutcome.gotoTimeout) = (none, 5) :=
  (scrape_book_retry_budget (fun _ => AttemptOutcome.gotoTimeout)
    (fun _ => Or.inl rfl)).1

/-! ## The backoff delay of scrape_book (scrape_details.py lines 78-87).
On a transient failure of attempt `attempt` the code sleeps
`random.uniform(2, 4) * attempt` seconds. The uniform draw is modelled
as a rational parameter `u` with `2 ≤ u ≤ 4`. -/

/-- The delay the code inserts after a failed attempt:
`random.uniform(2, 4) * attempt`, with `u` the value drawn by
`random.uniform(2, 4)`. -/
def scrapeBookBackoffDelay (attempt : Nat) (u : ℚ) : ℚ := u * attempt

/-- The backoff schedule claim C3 asserts: some positive base delay such
that every delay the code can produce decomposes as
base × 2^(attempt−1) plus a jitter in [0, base). -/
def exponentialBackoffClaim : Prop :=
  ∃ base : ℚ, 0 < base ∧ ∀ (attempt : Nat) (u : ℚ), 1 ≤ attempt → 2 ≤ u → u ≤ 4 →
    ∃ jitter : ℚ, 0 ≤ jitter ∧ jitter < base ∧
      scrapeBookBackoffDelay attempt u = base * 2 ^ (attempt - 1) + jitter

/-- Counterexample to C3 as stated: no base delay fits the code. A draw
of 2 at attempt 1 forces base ≥ 2 − jitter, a draw of 7/2 at attempt 1
forces base > 7/4, and a draw of 2 at attempt 3 (delay 6) forces
4·base ≤ 6, i.e. base ≤ 3/2 — contradiction. The schedule is linear in
the attempt number, not exponential. -/
theorem scrapeBookBackoffDelay_not_exponential : ¬ exponentialBackoffClaim := by
  rintro ⟨b, hb, h⟩
  obtain ⟨j2, hj2a, hj2b, he2⟩ := h 1 (7 / 2) le_rfl (by norm_num) (by norm_num)
  obtain ⟨j3, hj3a, hj3b, he3⟩ := h 3 2 (by norm_num) le_rfl (by norm_num)
  simp only [scrapeBookBackoffDelay] at he2 he3
  norm_num at he2 he3
  linarith

/-- C3 (amended): the delay inserted after a failed attempt equals the
uniform draw from [2, 4] multiplied by the attempt number — a linear
backoff with multiplicative jitter, bounded between 2·attempt and
4·attempt seconds. -/
theorem scrapeBookBackoffDelay_linear_bounds (attempt : Nat) (u : ℚ)
    (h2 : 2 ≤ u) (h4 : u ≤ 4) :
    scrapeBookBackoffDelay attempt u = u * attempt ∧
    2 * (attempt : ℚ) ≤ scrapeBookBackoffDelay attempt u ∧
    scrapeBookBackoffDelay attempt u ≤ 4 * (attempt : ℚ) := by
  refine ⟨rfl, ?_, ?_⟩ <;> simp only [scrapeBookBackoffDelay]
  · exact mul_le_mul_of_nonneg_right h2 (by positivity)
  · exact mul_le_mul_of_nonneg_right h4 (by positivity)

/-- Witness for the amended C3 at attempt 3 with a draw of 5/2. -/
theorem scrapeBookBackoffDelay_linear_bounds_witness :
    scrapeBookBackoffDelay 3 (5 / 2) = (5 / 2) * (3 : Nat) ∧
    2 * ((3 : Nat) : ℚ) ≤ scrapeBookBackoffDelay 3 (5 / 2) ∧
    scrapeBookBackoffDelay 3 (5 / 2) ≤ 4 * ((3 : Nat) : ℚ) :=
  scrapeBookBackoffDelay_linear_bounds 3 (5 / 2) (by norm_num) (by norm_num)

/-! ## Detail-page scrapers (scrape_details.py). A page is modelled by
the result of each selector extraction: `none` means the selector wait
or the text extraction raised (the `except` branch of the corresponding
`try` block runs), `some` carries the raw extracted text. The date
parsing of `extract_year_from_date` is orthogonal to every claim about
these functions and enters as the parameter `yearOf`. -/

/-- Python `needle in hay` on strings (substring test). -/
def containsSub (needle hay : String) : Bool :=
  (List.range (hay.data.length + 1)).any (fun i => needle.data.isPrefixOf (hay.data.drop i))

/-- Fuel-driven core of `str.replace("(Books)", "")`: scan left to
right, removing each occurrence of the 7-character pattern. The fuel is
the list length, so the fuel case 0 with a non-empty list is never
reached. -/
def stripBooksGo : Nat → List Char → List Char
  | 0, _ => []
  | _ + 1, [] => []
  | f + 1, c :: rest =>
    if "(Books)".data.isPrefixOf (c :: rest) then stripBooksGo f (rest.drop 6)
    else c :: stripBooksGo f rest

/-- Python `s.replace("(Books)", "")` as used on Amazon tag texts. -/
def pyReplaceBooks (s : String) : String :=
  String.mk (stripBooksGo s.data.length s.data)

/-- The `if author_name not in author_names` accumulation used by the
Leanpub/Packtpub/OReilly author loops: keep first occurrences. -/
def dedupStringsGo : List String → List String → List String
  | [], _ => []
  | a :: rest, seen =>
    if a ∈ seen then dedupStringsGo rest seen
    else a :: dedupStringsGo rest (a :: seen)

/-- Order-preserving first-occurrence deduplication of author names. -/
def dedupKeepFirst (l : List String) : List String := dedupStringsGo l []

/-- Extraction results of an Amazon detail page
(scrape_details.py lines 95-195). -/
structure AmazonPage where
  title : Option String
  authors : Option (List String)
  bylineInfo : Option String
  isbn10 : Option String
  isbn13 : Option String
  tags : Option (List String)
  publicationDate : Option String
  publicationDateExpanded : Option String
  description : Option String
  deriving DecidableEq, Repr

/-- `scrape_amazon_details` (lines 95-195): a missing title returns None
(lines 102-105) — the only failing path; every other `try` block catches
its exception and leaves the field absent or empty. ISBNs are read only
when the byline text is available and does not contain "Kindle Edition";
the publication date falls back to the details-button expansion when the
first read is empty; the final lines derive `year` and the `hash`
fingerprint via `hash_book`. -/
def scrape_amazon_details (url : String) (yearOf : Option String → Option Int)
    (page : AmazonPage) : Option BookDetails :=
  match page.title with
  | none => none
  | some rawTitle =>
    let title := pyStrip rawTitle
    let authors := (page.authors.map (fun l => l.map pyStrip)).getD []
    let isbns : Option String × Option String :=
      match page.bylineInfo with
      | none => (none, none)
      | some byline =>
        if containsSub "Kindle Edition" byline then (none, none)
        else (page.isbn10.map pyStrip, page.isbn13.map pyStrip)
    let tags := (page.tags.map (fun l => l.map (fun t => pyStrip (pyReplaceBooks t)))).getD []
    let pubDate : Option String :=
      match page.publicationDate with
      | none => none
      | some pd =>
        if pyStrip pd ≠ "" then some (pyStrip pd)
        else match page.publicationDateExpanded with
             | none => none
             | some pe => some (pyStrip pe)
    let descr := page.description.map pyStrip
    let year := yearOf pubDate
    some { url := url, site := "amazon", title := title, authors := authors,
           isbn10 := isbns.1, isbn13 := isbns.2, tags := tags,
           publication_date := pubDate, description := descr, year := year,
           hash := hash_book title authors year }

/-- Extraction results of a Packtpub detail page
(scrape_details.py lines 272-352). -/
structure PacktPage where
  title : Option String
  authors : Option (List String)
  isbn13 : Option String
  tags : Option (List String)
  publicationDate : Option String
  description : Option String
  deriving DecidableEq, Repr

/-- `scrape_packtpub_details` (lines 272-352): a missing title returns
None (lines 279-281), and — unlike the other site scrapers — a missing
description also returns None (line 346, "Considered essential for
Packtpub"); authors deduplicate first occurrences; the other fields
degrade to absent/empty on extraction failure. -/
def scrape_packtpub_details (url : String) (yearOf : Option String → Option Int)
    (page : PacktPage) : Option BookDetails :=
  match page.title with
  | none => none
  | some rawTitle =>
    let title := pyStrip rawTitle
    let authors := (page.authors.map (fun l => dedupKeepFirst (l.map pyStrip))).getD []
    let isbn13 := page.isbn13.map pyStrip
    let tags := (page.tags.map (fun l => l.map pyStrip)).getD []
    let pubDate := page.publicationDate
    match page.description with
    | none => none
    | some rawDescr =>
      let descr := pyStrip rawDescr
      let year := yearOf pubDate
      some { url := url, site := "packtpub", title := title, authors := authors,
             isbn10 := none, isbn13 := isbn13, tags := tags,
             publication_date := pubDate, description := some descr, year := year,
             hash := hash_book title authors year }

/-- A Packtpub page carrying a title but whose description extraction
raised. -/
def cexPacktPage : PacktPage :=
  { title := some "Modern CMake for Cpp", authors := some ["Rafal Swidzinski"],
    isbn13 := some "9781801070058", tags := some [],
    publicationDate := some "May 2022", description := none }

/-- Counterexample to C5 as stated: on Packtpub a detail page from which
a title IS extracted still fails the fetch when the description is
missing — absence of title is not the only failing condition. -/
theorem scrape_packtpub_description_required_cex :
    scrape_packtpub_details "https://www.packtpub.com/x" (fun _ => none) cexPacktPage = none ∧
    cexPacktPage.title ≠ none := by
  exact ⟨rfl, by decide⟩

/-- C5 (amended): for Amazon, absence of title is the one condition that
fails a detail fetch — a fetched title always yields a record, with the
authors field degrading to the empty list when its extraction raised;
for Packtpub, the fetch fails exactly when the title or the description
is missing. -/
theorem detail_fetch_failure_conditions (url : String)
    (yearOf : Option String → Option Int) (ap : AmazonPage) (pp : PacktPage) :
    ((scrape_amazon_details url yearOf ap).isSome ↔ ap.title.isSome) ∧
    (scrape_packtpub_details url yearOf pp = none ↔
      (pp.title = none ∨ pp.description = none)) ∧
    (∀ t, ap.title = some t →
      (scrape_amazon_details url yearOf ap).map BookDetails.title = some (pyStrip t) ∧
      (scrape_amazon_details url yearOf ap).map BookDetails.authors =
        some ((ap.authors.map (fun l => l.map pyStrip)).getD [])) := by
  refine ⟨?_, ?_, ?_⟩
  · rcases hap : ap.title with _ | t <;> simp [scrape_amazon_details, hap]
  · rcases hpt : pp.title with _ | t <;> rcases hpd : pp.description with _ | d <;>
      simp [scrape_packtpub_details, hpt, hpd]
  · intro t ht
    constructor <;> simp [scrape_amazon_details, ht]

/-- Witness for the amended C5 at a concrete Amazon page whose author
extraction raised. -/
theorem detail_fetch_failure_conditions_witness :
    ((scrape_amazon_details "https://www.amazon.com/x" (fun _ => none)
        { title := some "  Effective Modern Cpp ", authors := none, bylineInfo := none,
          isbn10 := none, isbn13 := none, tags := none, publicationDate := none,
          publicationDateExpanded := none, description := none }).isSome ↔
      (some "  Effective Modern Cpp " : Option String).isSome) ∧
    (scrape_amazon_details "https://www.amazon.com/x" (fun _ => none)
        { title := some "  Effective Modern Cpp ", authors := none, bylineInfo := none,
          isbn10 := none, isbn13 := none, tags := none, publicationDate := none,
          publicationDateExpanded := none, description := none }).map BookDetails.authors =
      some [] :=
  ⟨(detail_fetch_failure_conditions "https://www.amazon.com/x" (fun _ => none)
      { title := some "  Effective Modern Cpp ", authors := none, bylineInfo := none,
        isbn10 := none, isbn13 := none, tags := none, publicationDate := none,
        publicationDateExpanded := none, description := none }
      { title := none, authors := none, isbn13 := none, tags := none,
        publicationDate := none, description := none }).1,
   ((detail_fetch_failure_conditions "https://www.amazon.com/x" (fun _ => none)
      { title := some "  Effective Modern Cpp ", authors := none, bylineInfo := none,
        isbn10 := none, isbn13 := none, tags := none, publicationDate := none,
        publicationDateExpanded := none, description := none }
      { title := none, authors := none, isbn13 := none, tags := none,
        publicationDate := none, description := none }).2.2
      "  Effective Modern Cpp " rfl).2⟩

/-! ## The MongoDB store (database.py, deduplicate.py). A stored
document is a book dictionary; the fields relevant to the claims are the
fingerprint `hash` (under a unique index, `ensure_unique_index_on_hash`,
database.py lines 291-309) and the source-native identifiers queried by
the pre-scrape deduplication. An unreachable store is modelled as a
`none` collection — exactly the situation in which `get_mongo_collection`
hands the callers `None`. -/

structure MongoDoc where
  hash : String
  book_id : Option String
  slug : Option String
  asin : Option String
  deriving DecidableEq, Repr

structure BooksCollection where
  docs : List MongoDoc
  deriving DecidableEq, Repr

/-- Existence of a document with the given fingerprint hash. -/
def hashExists (coll : BooksCollection) (h : String) : Bool :=
  coll.docs.any (fun d => d.hash == h)

/-- The failure modes of `insert_one` other than the uniqueness
conflict, as distinguished by the `except` arms of
`save_books_to_mongodb` (database.py lines 168-198): an unacknowledged
write, `InvalidDocument`, `OperationFailure`, and any other exception. -/
inductive InsertFault where
  | notAcknowledged
  | invalidDocument
  | operationFailure
  | otherError
  deriving DecidableEq, Repr

inductive InsertOutcome where
  | inserted
  | duplicateKey
  | failed (f : InsertFault)
  deriving DecidableEq, Repr

/-- `collection.insert_one` against the unique index on `hash`: a fault
injected by the driver or server fails the call; otherwise a document
whose hash is already present raises `DuplicateKeyError` and leaves the
collection unchanged; otherwise the document is inserted. -/
def insert_one (coll : BooksCollection) (fault : Option InsertFault) (b : MongoDoc) :
    BooksCollection × InsertOutcome :=
  match fault with
  | some f => (coll, InsertOutcome.failed f)
  | none =>
    if hashExists coll b.hash then (coll, InsertOutcome.duplicateKey)
    else (⟨b :: coll.docs⟩, InsertOutcome.inserted)

/-- The three counters of `save_books_to_mongodb`. -/
structure InsertCounters where
  num_inserted : Nat
  num_duplicates : Nat
  num_errors : Nat
  deriving DecidableEq, Repr

/-- One iteration of the insert loop of `save_books_to_mongodb`
(database.py lines 168-198): `DuplicateKeyError` bumps
`num_duplicates`; an unacknowledged write, `InvalidDocument`,
`OperationFailure` or any other exception bumps `num_errors`; a
successful acknowledged insert bumps `num_inserted`. -/
def insertLoopStep (acc : BooksCollection × InsertCounters)
    (bf : MongoDoc × Option InsertFault) : BooksCollection × InsertCounters :=
  match insert_one acc.1 bf.2 bf.1 with
  | (coll2, InsertOutcome.inserted) =>
    (coll2, { acc.2 with num_inserted := acc.2.num_inserted + 1 })
  | (coll2, InsertOutcome.duplicateKey) =>
    (coll2, { acc.2 with num_duplicates := acc.2.num_duplicates + 1 })
  | (coll2, InsertOutcome.failed _) =>
    (coll2, { acc.2 with num_errors := acc.2.num_errors + 1 })

/-- `save_books_to_mongodb`: fold the insert loop over the book list,
starting from zeroed counters. Each book is paired with the fault, if
any, its `insert_one` call hits. -/
def save_books_to_mongodb (books : List (MongoDoc × Option InsertFault))
    (coll : BooksCollection) : BooksCollection × InsertCounters :=
  books.foldl insertLoopStep (coll, ⟨0, 0, 0⟩)

/-- C6: inserting a book whose fingerprint hash already exists in the
store hits the uniqueness constraint, which is reclassified as a
Duplicate — counted in `num_duplicates`, not `num_errors` — and the
store is unchanged by the failed insert; any other storage fault during
insert is counted in `num_errors`, not `num_duplicates`, and likewise
leaves the store unchanged. -/
theorem insert_conflict_reclassified_as_duplicate (coll : BooksCollection)
    (c : InsertCounters) (b : MongoDoc) :
    (hashExists coll b.hash = true →
      insertLoopStep (coll, c) (b, none) =
        (coll, { c with num_duplicates := c.num_duplicates + 1 })) ∧
    (∀ f : InsertFault,
      insertLoopStep (coll, c) (b, some f) =
        (coll, { c with num_errors := c.num_errors + 1 })) := by
  constructor
  · intro h
    simp [insertLoopStep, insert_one, h]
  · intro f
    simp [insertLoopStep, insert_one]

/-- A document already in the store. -/
def cexStoredDoc : MongoDoc :=
  { hash := "a3f2", book_id := none, slug := some "book-a", asin := none }

/-- A store holding that one document. -/
def cexBooksColl : BooksCollection := ⟨[cexStoredDoc]⟩

/-- A freshly scraped book carrying the same fingerprint hash. -/
def cexIncomingDoc : MongoDoc :=
  { hash := "a3f2", book_id := none, slug := none, asin := some "B0001" }

/-- Witness for C6: the conflicting insert counts as a duplicate and a
faulting insert counts as an error, the store unchanged in both cases. -/
theorem insert_conflict_reclassified_as_duplicate_witness :
    insertLoopStep (cexBooksColl, ⟨0, 0, 0⟩) (cexIncomingDoc, none) =
      (cexBooksColl, ⟨0, 1, 0⟩) ∧
    insertLoopStep (cexBooksColl, ⟨0, 0, 0⟩)
        (cexIncomingDoc, some InsertFault.operationFailure) =
      (cexBooksColl, ⟨0, 0, 1⟩) :=
  ⟨(insert_conflict_reclassified_as_duplicate cexBooksColl ⟨0, 0, 0⟩ cexIncomingDoc).1
      (by decide),
   (insert_conflict_reclassified_as_duplicate cexBooksColl ⟨0, 0, 0⟩ cexIncomingDoc).2
      InsertFault.operationFailure⟩

/-! ## Pre-scrape store deduplication (deduplicate.py lines 11-54,
database.py lines 226-245) and its behaviour when the store is
unreachable. -/

/-- Python truthiness of an optional string (`if book_id:`). -/
def truthyStr : Option String → Bool
  | none => false
  | some s => !(s == "")

/-- `leanpub_prescrape_deduplicate` (deduplicate.py lines 11-54): with
no collection available the function logs an error and returns False;
with no truthy book_id or slug it returns False; otherwise it runs a
`find_one` with an `$or` over the conditions built from the truthy
identifiers. The `except` arm of the query (lines 51-54) also returns
False. -/
def leanpub_prescrape_deduplicate (book_id book_slug : Option String)
    (coll : Option BooksCollection) : Bool :=
  match coll with
  | none => false
  | some c =>
    if truthyStr book_id = false ∧ truthyStr book_slug = false then false
    else c.docs.any (fun d =>
      (truthyStr book_id && d.book_id == book_id) ||
      (truthyStr book_slug && d.slug == book_slug))

/-- `check_book_exists_in_db` (database.py lines 226-245): with no
collection available the function logs an error and returns False;
otherwise `find_one({"hash": book_hash})`. -/
def check_book_exists_in_db (book_hash : String) (coll : Option BooksCollection) : Bool :=
  match coll with
  | none => false
  | some c => c.docs.any (fun d => d.hash == book_hash)

/-- The Leanpub store-deduplication stage of `main`
(search_and_scrape.py lines 270-292) over a possibly unreachable
collection. The `Except` layer is the run-level error channel claim C7
asserts: the code has no abort path here — every store failure inside
`leanpub_prescrape_deduplicate` is converted to a per-candidate False —
so the stage always returns `Except.ok`. -/
def leanpubStoreDedupStage (coll : Option BooksCollection) (books : List Candidate) :
    Except String (List Candidate × Nat) :=
  Except.ok (storeDedup
    (fun b => leanpub_prescrape_deduplicate b.book_id b.slug coll) books)

/-- A Leanpub candidate with a native id and slug. -/
def cexLeanpubBook : Candidate :=
  { site := "leanpub", title := "Learn X", book_id := some "42",
    slug := some "learn-x", asin := none, book_url := "https://leanpub.com/learn-x" }

/-- Counterexample to C7 as stated: with the store unreachable (no
collection) the run does NOT abort with a run-level error — the
deduplication stage completes normally, treating the candidate as new,
because the existence checks swallow the store failure per candidate
and return False. -/
theorem store_unreachable_no_abort_cex :
    leanpubStoreDedupStage none [cexLeanpubBook] = Except.ok ([cexLeanpubBook], 0) ∧
    check_book_exists_in_db "a3f2" none = false :=
  ⟨rfl, rfl⟩

/-- C7 (amended): if the persistent dedup store cannot be reached, the
run for the affected source does not abort; each per-candidate
existence check handles the store error itself by returning False, so
the stage completes with every candidate classified new, zero store
duplicates, and nothing already aggregated is discarded. -/
theorem store_unreachable_per_candidate_false (books : List Candidate)
    (h : String) (i s : Option String) :
    leanpubStoreDedupStage none books = Except.ok (books, 0) ∧
    leanpub_prescrape_deduplicate i s none = false ∧
    check_book_exists_in_db h none = false := by
  refine ⟨?_, rfl, rfl⟩
  simp only [leanpubStoreDedupStage]
  rw [storeDedup_all_false
    (fun b => leanpub_prescrape_deduplicate b.book_id b.slug none) (fun b => rfl) books]
